import Mathlib

/-!
Shallow embedding of the real-time multi-modal conversation session of the
ArtSensei backend (src/art_sensei/src). Python string primitives are modelled
over Lean `String` (ASCII case folding; Python whitespace modelled by
`Char.isWhitespace`). External providers (Deepgram speech-to-text, Gemini
generation, ElevenLabs text-to-speech) are modelled by outcome oracles passed
explicitly to each operation; `await` points are sequential in the cooperative
model, matching the single-threaded per-session event loop.
-/

namespace ArtSensei

/-- Python `str.lower()` restricted to ASCII, as used for transcript
comparison in `main.py`; defined over the character list so that it reduces
definitionally. -/
def pyLower (s : String) : String :=
  String.mk (s.data.map Char.toLower)

/-- Python `str.rstrip()`: remove trailing whitespace characters. -/
def pyRstrip (s : String) : String :=
  String.mk ((s.data.reverse.dropWhile Char.isWhitespace).reverse)

/-- Python `s.startswith(pre)`: exact prefix match. -/
def pyStartsWith (s pre : String) : Bool :=
  pre.data.isPrefixOf s.data

/-- Python `s.endswith(suf)`: exact suffix match. -/
def pyEndsWith (s suf : String) : Bool :=
  suf.data.isSuffixOf s.data

/-- Word accumulator for Python `str.split()` with no separator: runs of
non-whitespace characters, in order. -/
def pyWords : List Char → List Char → List String
  | acc, [] => if acc = [] then [] else [String.mk acc.reverse]
  | acc, c :: cs =>
    if c.isWhitespace then
      if acc = [] then pyWords [] cs else String.mk acc.reverse :: pyWords [] cs
    else pyWords (c :: acc) cs

/-- Python `str.split()` with no separator: whitespace-delimited words,
empty pieces discarded. -/
def pySplit (s : String) : List String :=
  pyWords [] s.data

/-- Python `len(s.split())` as used for the word-count tests in `main.py`. -/
def wordCount (s : String) : Nat :=
  (pySplit s).length

/-- Conversation roles, from `conversation_context.py` (the `role` field of a
message dict is either `"user"` or `"assistant"`). -/
inductive Role where
  | user
  | assistant
deriving DecidableEq, Repr

/-- One message of the conversation history: `{"role": ..., "content": ...}`
in `conversation_context.py`. -/
structure Turn where
  role : Role
  content : String
deriving DecidableEq, Repr

/-- Role display used by `get_conversation_history`:
`"User" if msg["role"] == "user" else "Assistant"`. -/
def roleDisplay : Role → String
  | Role.user => "User"
  | Role.assistant => "Assistant"

/-- State of `ConversationContext.__init__`: `self.messages = []`,
`self.current_image = None`. -/
structure ConversationContext where
  messages : List Turn
  current_image : Option String
deriving DecidableEq, Repr

namespace ConversationContext

/-- The freshly constructed context of `websocket_endpoint`. -/
def init : ConversationContext :=
  { messages := [], current_image := none }

/-- Embeds `ConversationContext.add_user_message`. -/
def add_user_message (ctx : ConversationContext) (text : String) : ConversationContext :=
  { ctx with messages := ctx.messages ++ [{ role := Role.user, content := text }] }

/-- Embeds `ConversationContext.add_ai_response`. -/
def add_ai_response (ctx : ConversationContext) (text : String) : ConversationContext :=
  { ctx with messages := ctx.messages ++ [{ role := Role.assistant, content := text }] }

/-- The synthetic placeholder content appended by `add_image_message`. -/
def imagePlaceholder : String := "[User shared an image for analysis]"

/-- Embeds `ConversationContext.add_image_message`: stores the data URL in
`current_image` and appends the fixed placeholder user turn. -/
def add_image_message (ctx : ConversationContext) (image_data_url : String) : ConversationContext :=
  { messages := ctx.messages ++ [{ role := Role.user, content := imagePlaceholder }],
    current_image := some image_data_url }

/-- Python slice `l[-k:]` for a nonnegative count `k` (the only use in
`get_conversation_history`). For `k = 0`, `l[-0:]` is `l[0:]`, the whole
list; for `k > 0` it is the last `k` elements. -/
def pySliceLast (l : List Turn) (k : Nat) : List Turn :=
  if k = 0 then l else l.drop (l.length - k)

/-- The `for msg in recent_messages` formatting loop of
`get_conversation_history`: one `"<Role>: <content>\n"` line per turn,
oldest first. -/
def formatTurns : List Turn → String
  | [] => ""
  | t :: ts => roleDisplay t.role ++ ": " ++ t.content ++ "\n" ++ formatTurns ts

/-- Embeds `ConversationContext.get_conversation_history(max_messages=10)`:
`recent_messages = self.messages[-max_messages:] if len(self.messages) >
max_messages else self.messages`, then the formatting loop. -/
def get_conversation_history (ctx : ConversationContext) (max_messages : Nat := 10) : String :=
  let recent_messages :=
    if ctx.messages.length > max_messages then pySliceLast ctx.messages max_messages
    else ctx.messages
  formatTurns recent_messages

/-- Embeds `ConversationContext.get_prompt_with_context`: wraps the prompt in the
fixed grounding template when `get_conversation_history()` is non-empty
(Python string truthiness), otherwise returns the prompt unchanged. -/
def get_prompt_with_context (ctx : ConversationContext) (prompt : String) : String :=
  let context := get_conversation_history ctx
  if context ≠ "" then
    "\nPrevious conversation:\n" ++ context ++
      "\n\nUser\x27s new question: " ++ prompt ++
      "\n\nPlease respond to the question in the context of our conversation.\n"
  else
    prompt

end ConversationContext

/-- Completeness test of `send_transcript_to_client` (main.py): sentence-final
punctuation on the right-trimmed transcript, or word-count growth of at least
3 over the last accepted transcript. -/
def is_complete (transcript last_transcript : String) : Bool :=
  pyEndsWith (pyRstrip transcript) "." || pyEndsWith (pyRstrip transcript) "?" ||
    pyEndsWith (pyRstrip transcript) "!" ||
    decide (wordCount transcript ≥ wordCount last_transcript + 3)

/-- Python `starts_with_last = last_transcript and
transcript.lower().startswith(last_transcript.lower())` — the conjunct
`last_transcript` is string truthiness, i.e. non-emptiness. -/
def starts_with_last (transcript last_transcript : String) : Bool :=
  (last_transcript != "") && pyStartsWith (pyLower transcript) (pyLower last_transcript)

/-- Python `word_diff = len(transcript.split()) - len(last_transcript.split())
if last_transcript else len(transcript.split())`; Python int subtraction, so
the value lives in `Int`. -/
def word_diff (transcript last_transcript : String) : Int :=
  if last_transcript ≠ "" then
    (wordCount transcript : Int) - (wordCount last_transcript : Int)
  else (wordCount transcript : Int)

/-- Duplicate test of `send_transcript_to_client`: case-insensitive equality,
or a 1-2 word extension of the last accepted transcript. -/
def is_duplicate (transcript last_transcript : String) : Bool :=
  pyLower transcript == pyLower last_transcript ||
    (starts_with_last transcript last_transcript &&
      decide (word_diff transcript last_transcript ≤ 2) &&
      decide (word_diff transcript last_transcript > 0))

/-- The gate decision `is_complete and not is_duplicate` of
`send_transcript_to_client`. -/
def utteranceAccept (transcript last_transcript : String) : Bool :=
  is_complete transcript last_transcript && !is_duplicate transcript last_transcript

/-- Outcome of one Gemini `model.generate_content` call, as observed by the
code: either a response object whose `.text` field is the given string
(possibly empty when blocked), or an exception. -/
inductive GenOutcome where
  | response (text : String)
  | raised
deriving DecidableEq, Repr

/-- Fixed apology returned by `analyze_text_with_gemini` for a blocked or
empty model response. -/
def apologyRestricted : String :=
  "Sorry, I couldn\x27t process that request due to content restrictions."

/-- Fixed apology returned by `analyze_text_with_gemini` when the provider
call raises. -/
def apologyCommError : String :=
  "Sorry, there was an error communicating with the analysis service."

/-- Embeds `analyze_text_with_gemini` (gemini_integration.py). The prompt
text is consumed by the external model, whose behaviour is the outcome
oracle; the function is total — every fault is converted to a fixed apology
string. -/
def analyze_text_with_gemini (text : String) (outcome : GenOutcome) : String :=
  match text, outcome with
  | _, GenOutcome.response t => if t ≠ "" then t else apologyRestricted
  | _, GenOutcome.raised => apologyCommError

/-- Outcome of one Gemini vision call inside `analyze_image_from_data_url`:
a response with the given `.text`, or an exception carrying a message
(this also covers data-URL parsing errors, which the same handler catches). -/
inductive ImageOutcome where
  | response (text : String)
  | raised (msg : String)
deriving DecidableEq, Repr

/-- Fixed apology returned by `analyze_image_from_data_url` for a blocked or
empty vision response. -/
def imageApologyRestricted : String :=
  "Sorry, I couldn\x27t analyze the image due to content restrictions or other issues."

/-- Embeds `analyze_image_from_data_url` (gemini_integration.py): the
deterministic `data:` prefix check, then the oracle-driven provider call;
total — every fault becomes an error string return. -/
def analyze_image_from_data_url (data_url : String) (outcome : ImageOutcome) : String :=
  if ¬ pyStartsWith data_url "data:" then "Invalid data URL format."
  else
    match outcome with
    | ImageOutcome.response t => if t ≠ "" then t else imageApologyRestricted
    | ImageOutcome.raised msg => "Sorry, there was an error analyzing the image: " ++ msg

/-- Per-session mutable state of `websocket_endpoint` visible to the
transcript callback: the `conversation` context and the nonlocal
`last_transcript`. -/
structure SessionState where
  conversation : ConversationContext
  last_transcript : String
deriving DecidableEq, Repr

/-- Session state at client connect: fresh context, empty last transcript. -/
def SessionState.init : SessionState :=
  { conversation := ConversationContext.init, last_transcript := "" }

/-- Outbound events sent over the client websocket (main.py). The JSON
envelope is transport encoding; `ai_audio` carries the synthesized bytes
(base64 encoding is likewise a transport detail). -/
inductive OutEvent where
  | transcription (text : String)
  | ai_response (text : String)
  | ai_audio (audio_bytes : List Nat)
  | error (text : String)
deriving DecidableEq, Repr

/-- Trace of outbound provider invocations, recorded so that theorems can
speak about the prompt handed to the generation capability. -/
inductive ProviderCall where
  | genCall (prompt : String)
  | ttsCall (text : String)
  | imageAnalysisCall (data_url : String)
deriving DecidableEq, Repr

/-- Result of one inbound-event handler run: updated session state, outbound
events in emission order, provider calls in invocation order. -/
structure StepResult where
  state : SessionState
  events : List OutEvent
  calls : List ProviderCall
deriving DecidableEq, Repr

/-- The `if audio_bytes:` guard of main.py around the `ai_audio` send:
`none` models a TTS failure (exception caught inside
`text_to_speech_elevenlabs`, or its `None` return), `some []` the empty
bytes that Python truthiness also rejects. -/
def ttsEvents (audio_bytes : Option (List Nat)) : List OutEvent :=
  match audio_bytes with
  | some bs => if bs ≠ [] then [OutEvent.ai_audio bs] else []
  | none => []

/-- Embeds the `send_transcript_to_client` callback of `websocket_endpoint`
(main.py): emit the live caption, run the utterance gate, and on accept
append the user turn, build the grounded prompt, invoke generation, append
the response, emit `ai_response` then the best-effort `ai_audio`. -/
def send_transcript_to_client (st : SessionState) (transcript : String)
    (gen : GenOutcome) (tts : Option (List Nat)) : StepResult :=
  if utteranceAccept transcript st.last_transcript then
    let conv1 := st.conversation.add_user_message transcript
    let contextual_prompt := conv1.get_prompt_with_context transcript
    let ai_response := analyze_text_with_gemini contextual_prompt gen
    let conv2 := conv1.add_ai_response ai_response
    { state := { conversation := conv2, last_transcript := transcript },
      events := [OutEvent.transcription transcript, OutEvent.ai_response ai_response] ++
        ttsEvents tts,
      calls := [ProviderCall.genCall contextual_prompt, ProviderCall.ttsCall ai_response] }
  else
    { state := st, events := [OutEvent.transcription transcript], calls := [] }

/-- Embeds the `analyze_image` branch of the `websocket_endpoint` receive
loop: record the image in context, analyze it, append the result, emit
`ai_response` then best-effort `ai_audio`. -/
def handle_image_message (st : SessionState) (data_url : String)
    (img : ImageOutcome) (tts : Option (List Nat)) : StepResult :=
  let conv1 := st.conversation.add_image_message data_url
  let analysis_result := analyze_image_from_data_url data_url img
  let conv2 := conv1.add_ai_response analysis_result
  { state := { conversation := conv2, last_transcript := st.last_transcript },
    events := [OutEvent.ai_response analysis_result] ++ ttsEvents tts,
    calls := [ProviderCall.imageAnalysisCall data_url, ProviderCall.ttsCall analysis_result] }

/-- Observable state of a `DeepgramConnection` (deepgram_client.py):
`is_connected` flag and whether `self.dg_connection` is non-`None`. -/
structure DGState where
  is_connected : Bool
  has_connection : Bool
deriving DecidableEq, Repr

/-- State after `DeepgramConnection.__init__`: not connected, no connection
object. -/
def DGState.init : DGState :=
  { is_connected := false, has_connection := false }

/-- Outcome of one `connect()` call (plus the grace delay the callers give
it): the provider stream opened (the `Open` event fired, setting
`is_connected`); the connection object was created but the stream did not
open (start failed or the `Open` event has not fired); or the call raised
before `self.dg_connection` was assigned. -/
inductive ConnectOutcome where
  | opened
  | notOpened
  | failedBeforeAssign
deriving DecidableEq, Repr

/-- Embeds `DeepgramConnection.connect`: all exceptions are caught inside,
so it is total; `is_connected` is true only when the `Open` event fired. -/
def DeepgramConnection.connect (st : DGState) (co : ConnectOutcome) : DGState :=
  match co with
  | ConnectOutcome.opened => { is_connected := true, has_connection := true }
  | ConnectOutcome.notOpened => { is_connected := false, has_connection := true }
  | ConnectOutcome.failedBeforeAssign => { st with is_connected := false }

/-- Embeds `DeepgramConnection.send_audio`: when the stream is not active,
one `connect()` attempt (the `ConnectOutcome` oracle) followed by the grace
delay (a no-op here); then the guarded transport send (`sendOk` oracle).
Returns the new state, the boolean result, and the number of reconnect
attempts made. Total: never raises. -/
def DeepgramConnection.send_audio (st : DGState) (co : ConnectOutcome) (sendOk : Bool) :
    DGState × Bool × Nat :=
  let (st1, attempts) :=
    if ¬ (st.is_connected && st.has_connection) then (DeepgramConnection.connect st co, 1)
    else (st, 0)
  if st1.is_connected && st1.has_connection then
    if sendOk then (st1, true, attempts)
    else ({ st1 with is_connected := false }, false, attempts)
  else (st1, false, attempts)

/-- Embeds `DeepgramConnection.finish`: closes the provider stream when a
connection object exists (an external effect) and clears `is_connected`;
the connection object reference is not cleared by the source. -/
def DeepgramConnection.finish (st : DGState) : DGState :=
  { st with is_connected := false }

/-- One inbound occurrence processed by the session loop, with the provider
oracles its handler consumes: an `analyze_image` control message, any other
(malformed) text message (caught, logged, dropped), a binary audio chunk, or
a transcript event delivered by the provider callback (the provider awaits
each callback, so transcript events are serialized). -/
inductive SessionInput where
  | controlImage (data_url : String) (img : ImageOutcome) (tts : Option (List Nat))
  | controlOther
  | audioChunk (co : ConnectOutcome) (sendOk : Bool)
  | transcriptEvent (transcript : String) (gen : GenOutcome) (tts : Option (List Nat))
deriving DecidableEq, Repr

/-- Dispatch of one inbound occurrence, mirroring the `websocket_endpoint`
receive loop and the transcript callback. -/
def stepInput (st : SessionState) (dg : DGState) :
    SessionInput → SessionState × DGState × List OutEvent
  | SessionInput.controlImage d img tts =>
    let r := handle_image_message st d img tts
    (r.state, dg, r.events)
  | SessionInput.controlOther => (st, dg, [])
  | SessionInput.audioChunk co ok =>
    (st, (DeepgramConnection.send_audio dg co ok).1, [])
  | SessionInput.transcriptEvent t gen tts =>
    let r := send_transcript_to_client st t gen tts
    (r.state, dg, r.events)

/-- The active session loop: processes inbound occurrences in order,
concatenating the outbound events of each handler run. -/
def runActive (st : SessionState) (dg : DGState) :
    List SessionInput → SessionState × DGState × List OutEvent
  | [] => (st, dg, [])
  | i :: rest =>
    ((runActive (stepInput st dg i).1 (stepInput st dg i).2.1 rest).1,
     (runActive (stepInput st dg i).1 (stepInput st dg i).2.1 rest).2.1,
     (stepInput st dg i).2.2 ++
       (runActive (stepInput st dg i).1 (stepInput st dg i).2.1 rest).2.2)

/-- How the receive loop ends: the client disconnected
(`WebSocketDisconnect`), or an unhandled fault escaped the loop. -/
inductive SessionEnd where
  | clientDisconnect
  | serverFault (msg : String)
deriving DecidableEq, Repr

/-- Observable outcome of one whole `websocket_endpoint` run: outbound
events, the server-initiated close (code, reason) if any, whether
`dg_connection.finish()` ran, and the final transcription-stream state. -/
structure EndpointResult where
  events : List OutEvent
  close_info : Option (Nat × String)
  finish_invoked : Bool
  final_dg : DGState
deriving DecidableEq, Repr

/-- Embeds `websocket_endpoint` (main.py): connect to the transcription
provider, wait the 0.5s grace delay (a no-op here), close early with the
service-unavailable reason when the stream is not connected, otherwise run
the receive loop until the session ends; the `finally` block invokes
`finish()` on every exit path. -/
def websocket_endpoint (co : ConnectOutcome) (script : List SessionInput)
    (ending : SessionEnd) : EndpointResult :=
  let dg0 := DeepgramConnection.connect DGState.init co
  if ¬ dg0.is_connected then
    { events := [],
      close_info := some (1011, "Failed to connect to transcription service"),
      finish_invoked := true, final_dg := DeepgramConnection.finish dg0 }
  else
    let r := runActive SessionState.init dg0 script
    match ending with
    | SessionEnd.clientDisconnect =>
      { events := r.2.2, close_info := none, finish_invoked := true,
        final_dg := DeepgramConnection.finish r.2.1 }
    | SessionEnd.serverFault msg =>
      { events := r.2.2, close_info := some (1011, "Server error: " ++ msg),
        finish_invoked := true, final_dg := DeepgramConnection.finish r.2.1 }

/-- Event classifier: is this an `ai_response` caption event? -/
def isAiResponse : OutEvent → Bool
  | OutEvent.ai_response _ => true
  | _ => false

/-- Event classifier: is this an `ai_audio` event? -/
def isAiAudio : OutEvent → Bool
  | OutEvent.ai_audio _ => true
  | _ => false

/-- Event classifier: is this an `error` event? -/
def isErrorEvent : OutEvent → Bool
  | OutEvent.error _ => true
  | _ => false

/-- Number of events in a list satisfying a classifier. -/
def countEvents (p : OutEvent → Bool) (evs : List OutEvent) : Nat :=
  (evs.filter p).length

/-- Completeness predicate written from the claim wording, to be compared
with the source gate `is_complete`. -/
def specComplete (transcript last_accepted : String) : Prop :=
  pyEndsWith (pyRstrip transcript) "." = true ∨
    pyEndsWith (pyRstrip transcript) "?" = true ∨
    pyEndsWith (pyRstrip transcript) "!" = true ∨
    wordCount transcript ≥ wordCount last_accepted + 3

/-- Duplicate predicate written from the claim wording, to be compared with
the source gate `is_duplicate`. -/
def specDuplicate (transcript last_accepted : String) : Prop :=
  pyLower transcript = pyLower last_accepted ∨
    (last_accepted ≠ "" ∧
      pyStartsWith (pyLower transcript) (pyLower last_accepted) = true ∧
      wordCount last_accepted < wordCount transcript ∧
      wordCount transcript ≤ wordCount last_accepted + 2)

/-- One rendered history line, written from the claim wording
(`Role: content` terminated by a newline), to be compared with the source
formatting loop. -/
def specRenderLine (t : Turn) : String :=
  roleDisplay t.role ++ ": " ++ t.content ++ "\n"

/-- Concatenation, oldest first, of rendered history lines, written from the
claim wording. -/
def specRenderTurns : List Turn → String
  | [] => ""
  | t :: ts => specRenderLine t ++ specRenderTurns ts

/-- The fixed wrapping template of `get_prompt_with_context`, named so the
non-empty-history case can be stated against it. -/
def groundedTemplate (history prompt : String) : String :=
  "\nPrevious conversation:\n" ++ history ++
    "\n\nUser\x27s new question: " ++ prompt ++
    "\n\nPlease respond to the question in the context of our conversation.\n"

/-- Does this generation outcome count as a fault (provider exception, or a
blocked/empty model response, i.e. falsy `response.text`)? -/
def isGenFault : GenOutcome → Bool
  | GenOutcome.response t => t == ""
  | GenOutcome.raised => true

/-- The fixed apology `analyze_text_with_gemini` produces for each fault
kind. -/
def apologyFor : GenOutcome → String
  | GenOutcome.response _ => apologyRestricted
  | GenOutcome.raised => apologyCommError

/-- A concrete 15-turn history used to instantiate the rendering bound. -/
def fifteenTurns : List Turn :=
  (List.range 15).map (fun i => { role := Role.user, content := toString i })

/-- Formatting a non-empty turn list yields a non-empty string. -/
theorem formatTurns_ne_empty (l : List Turn) (h : l ≠ []) :
    ConversationContext.formatTurns l ≠ "" := by
  cases l with
  | nil => exact absurd rfl h
  | cons t ts =>
    intro heq
    have hlen := congrArg String.length heq
    rw [ConversationContext.formatTurns] at hlen
    simp only [String.length_append] at hlen
    have hr : 4 ≤ (roleDisplay t.role).length := by cases t.role <;> decide
    have h1 : (": " : String).length = 2 := by decide
    have h2 : ("\n" : String).length = 1 := by decide
    have h3 : ("" : String).length = 0 := by decide
    omega

/-- The source formatting loop agrees with the claim-side line rendering. -/
theorem formatTurns_eq_specRenderTurns (l : List Turn) :
    ConversationContext.formatTurns l = specRenderTurns l := by
  induction l with
  | nil => rfl
  | cons t ts ih =>
    simp [ConversationContext.formatTurns, specRenderTurns, specRenderLine, ih,
      String.append_assoc]

/-- A context with at least one turn renders to a non-empty history. -/
theorem get_conversation_history_ne_empty (ctx : ConversationContext)
    (h : ctx.messages ≠ []) : ctx.get_conversation_history ≠ "" := by
  rw [ConversationContext.get_conversation_history]
  split
  · next hgt =>
    apply formatTurns_ne_empty
    rw [ConversationContext.pySliceLast]
    have hlen : 10 < ctx.messages.length := hgt
    rw [if_neg (by omega)]
    intro hnil
    have := congrArg List.length hnil
    simp only [List.length_drop, List.length_nil] at this
    omega
  · exact formatTurns_ne_empty _ h

/-- C7: for every prompt string, building the grounded prompt on a context
with no turns returns the prompt unchanged, and on a context with at least
one turn it returns the fixed wrapping template embedding the rendered
history and the new prompt. -/
theorem C7_grounded_prompt (ctx : ConversationContext) (prompt : String) :
    (ctx.messages = [] → ctx.get_prompt_with_context prompt = prompt) ∧
    (ctx.messages ≠ [] →
      ctx.get_prompt_with_context prompt =
        groundedTemplate ctx.get_conversation_history prompt) := by
  constructor
  · intro h
    rw [ConversationContext.get_prompt_with_context]
    have hctx : ctx.get_conversation_history = "" := by
      rw [ConversationContext.get_conversation_history, h]
      rfl
    simp [hctx]
  · intro h
    have hne := get_conversation_history_ne_empty ctx h
    rw [ConversationContext.get_prompt_with_context, groundedTemplate]
    simp [hne]

/-- Witness for C7 at a concrete empty and a concrete one-turn context. -/
theorem C7_grounded_prompt_witness :
    ConversationContext.init.get_prompt_with_context "Q" = "Q" ∧
    (ConversationContext.init.add_user_message "hi").get_prompt_with_context "Q" =
      groundedTemplate
        (ConversationContext.init.add_user_message "hi").get_conversation_history "Q" := by
  constructor
  · exact (C7_grounded_prompt ConversationContext.init "Q").1 rfl
  · exact (C7_grounded_prompt (ConversationContext.init.add_user_message "hi") "Q").2
      (by decide)

/-- C9: finish() is idempotent and total: on the never-connected stream it is
a state no-op; it always leaves `is_connected` false; and applying it twice
has the same effect on the stream state as applying it once. Totality (no
exception reaches the caller) is the totality of the embedding. -/
theorem C9_finish_idempotent (st : DGState) :
    DeepgramConnection.finish DGState.init = DGState.init ∧
    (DeepgramConnection.finish st).is_connected = false ∧
    DeepgramConnection.finish (DeepgramConnection.finish st) =
      DeepgramConnection.finish st := by
  exact ⟨rfl, rfl, rfl⟩

/-- C4: the send_audio contract, as equations over the instrumented
embedding: exactly one reconnect attempt when and only when the stream is
not active; the boolean result is true exactly when the (possibly
reconnected) stream is active and the transport accepts the chunk; a
transport failure additionally clears `is_connected`. Totality of the
embedding captures that no exception reaches the caller. -/
theorem C4_send_audio_contract (st : DGState) (co : ConnectOutcome) (sendOk : Bool) :
    (DeepgramConnection.send_audio st co sendOk).2.2 =
      (if st.is_connected && st.has_connection then 0 else 1) ∧
    (DeepgramConnection.send_audio st co sendOk).2.1 =
      ((if st.is_connected && st.has_connection then st
        else DeepgramConnection.connect st co).is_connected &&
       (if st.is_connected && st.has_connection then st
        else DeepgramConnection.connect st co).has_connection && sendOk) ∧
    (DeepgramConnection.send_audio st co sendOk).1 =
      (let st1 := if st.is_connected && st.has_connection then st
        else DeepgramConnection.connect st co
       if st1.is_connected && st1.has_connection && !sendOk then
         { st1 with is_connected := false }
       else st1) := by
  rcases st with ⟨ic, hc⟩
  cases ic <;> cases hc <;> cases sendOk <;> cases co <;>
    simp [DeepgramConnection.send_audio, DeepgramConnection.connect]

/-- C6 counterexample: with one appended turn and `max_turns = 0`, the source
renders the whole history (Python `messages[-0:]` is the whole list), not
the last `min(1, 0) = 0` turns claimed. -/
theorem C6_counterexample :
    ¬ (ConversationContext.get_conversation_history
        { messages := [{ role := Role.user, content := "hi" }], current_image := none } 0 =
       specRenderTurns (([{ role := Role.user, content := "hi" }] : List Turn).drop
        (([{ role := Role.user, content := "hi" }] : List Turn).length -
          min ([{ role := Role.user, content := "hi" }] : List Turn).length 0))) := by
  decide

/-- C6 (amended: for every `max_turns ≥ 1`): rendering the history returns
the concatenation, oldest first, of exactly the last `min(n, max_turns)`
turns, one `Role: content` newline-terminated line each; the history the
prompt builder renders (its fixed `max_messages = 10`) therefore never
exceeds 10 turns. -/
theorem C6_render_history_last_min (msgs : List Turn) (img : Option String)
    (max_turns : Nat) (hmax : 1 ≤ max_turns) :
    ConversationContext.get_conversation_history
      { messages := msgs, current_image := img } max_turns =
      specRenderTurns (msgs.drop (msgs.length - min msgs.length max_turns)) ∧
    (msgs.drop (msgs.length - min msgs.length max_turns)).length =
      min msgs.length max_turns ∧
    min msgs.length 10 ≤ 10 := by
  refine ⟨?_, ?_, Nat.min_le_right _ _⟩
  · rw [ConversationContext.get_conversation_history]
    simp only []
    split
    · next hgt =>
      rw [ConversationContext.pySliceLast, if_neg (by omega),
        formatTurns_eq_specRenderTurns, Nat.min_eq_right (by omega)]
    · next hle =>
      rw [formatTurns_eq_specRenderTurns, Nat.min_eq_left (by omega),
        Nat.sub_self, List.drop_zero]
  · rcases Nat.le_total msgs.length max_turns with h | h
    · rw [Nat.min_eq_left h, List.length_drop]
      omega
    · rw [Nat.min_eq_right h, List.length_drop]
      omega

/-- Witness for C6 at 15 appended turns and `max_turns = 10`: exactly the
last 10 are rendered. -/
theorem C6_render_history_witness :
    1 ≤ 10 ∧
    (ConversationContext.get_conversation_history
      { messages := fifteenTurns, current_image := none } 10 =
      specRenderTurns (fifteenTurns.drop
        (fifteenTurns.length - min fifteenTurns.length 10)) ∧
    (fifteenTurns.drop (fifteenTurns.length - min fifteenTurns.length 10)).length =
      min fifteenTurns.length 10 ∧
    min fifteenTurns.length 10 ≤ 10) :=
  ⟨by decide, C6_render_history_last_min fifteenTurns none 10 (by decide)⟩

/-- The source completeness test agrees with the claim-side predicate. -/
theorem is_complete_iff (transcript last_accepted : String) :
    is_complete transcript last_accepted = true ↔
      specComplete transcript last_accepted := by
  simp [is_complete, specComplete, Bool.or_eq_true, decide_eq_true_eq, or_assoc]

/-- The source duplicate test agrees with the claim-side predicate: the
Python `Int` word-count delta in `(0, 2]`, guarded by truthiness of
`last_transcript`, is the claim wording. -/
theorem is_duplicate_iff (transcript last_accepted : String) :
    is_duplicate transcript last_accepted = true ↔
      specDuplicate transcript last_accepted := by
  rw [is_duplicate, specDuplicate, Bool.or_eq_true, beq_iff_eq]
  apply or_congr Iff.rfl
  simp only [Bool.and_eq_true, starts_with_last, word_diff, bne_iff_ne, decide_eq_true_eq]
  by_cases hl : last_accepted = ""
  · simp [hl]
  · rw [if_pos hl]
    constructor
    · rintro ⟨⟨⟨hne, hs⟩, h2⟩, h0⟩
      exact ⟨hl, hs, by omega, by omega⟩
    · rintro ⟨_, hs, hlt, hle⟩
      exact ⟨⟨⟨hl, hs⟩, by omega⟩, by omega⟩

/-- C1: the utterance gate accepts exactly the complete non-duplicate
transcripts (in the sense of the claim wording); a transcript that is both
complete and duplicate is rejected; and only on acceptance does the session
append the transcript to the conversation context (followed by the model
response turn) and update `last_transcript` to it. -/
theorem C1_utterance_gate (st : SessionState) (transcript : String)
    (gen : GenOutcome) (tts : Option (List Nat)) :
    (utteranceAccept transcript st.last_transcript = true ↔
      (specComplete transcript st.last_transcript ∧
        ¬ specDuplicate transcript st.last_transcript)) ∧
    (specComplete transcript st.last_transcript →
      specDuplicate transcript st.last_transcript →
      utteranceAccept transcript st.last_transcript = false) ∧
    (utteranceAccept transcript st.last_transcript = false →
      (send_transcript_to_client st transcript gen tts).state = st ∧
      (send_transcript_to_client st transcript gen tts).events =
        [OutEvent.transcription transcript]) ∧
    (utteranceAccept transcript st.last_transcript = true →
      (send_transcript_to_client st transcript gen tts).state.last_transcript =
        transcript ∧
      (send_transcript_to_client st transcript gen tts).state.conversation.messages =
        st.conversation.messages ++
          [Turn.mk Role.user transcript,
           Turn.mk Role.assistant (analyze_text_with_gemini
             ((st.conversation.add_user_message transcript).get_prompt_with_context
               transcript) gen)]) := by
  have hiff : utteranceAccept transcript st.last_transcript = true ↔
      (specComplete transcript st.last_transcript ∧
        ¬ specDuplicate transcript st.last_transcript) := by
    rw [utteranceAccept, Bool.and_eq_true, Bool.not_eq_true']
    rw [is_complete_iff]
    constructor
    · rintro ⟨h1, h2⟩
      refine ⟨h1, fun hs => ?_⟩
      rw [(is_duplicate_iff _ _).mpr hs] at h2
      exact absurd h2 (by simp)
    · rintro ⟨h1, h2⟩
      refine ⟨h1, ?_⟩
      cases hb : is_duplicate transcript st.last_transcript with
      | false => rfl
      | true => exact absurd ((is_duplicate_iff _ _).mp hb) h2
  refine ⟨hiff, ?_, ?_, ?_⟩
  · intro hc hd
    cases hb : utteranceAccept transcript st.last_transcript with
    | false => rfl
    | true => exact absurd hd (hiff.mp hb).2
  · intro h
    rw [send_transcript_to_client, if_neg (by rw [h]; simp)]
    exact ⟨rfl, rfl⟩
  · intro h
    rw [send_transcript_to_client, if_pos h]
    refine ⟨rfl, ?_⟩
    simp [ConversationContext.add_user_message, ConversationContext.add_ai_response]

/-- Witness for C1: an accepted first utterance updates the state; a 1-word
extension of the last accepted transcript is rejected and leaves the state
unchanged. -/
theorem C1_utterance_gate_witness :
    (send_transcript_to_client SessionState.init "Hello there."
      (GenOutcome.response "R") none).state.last_transcript = "Hello there." ∧
    (send_transcript_to_client
      { conversation := ConversationContext.init, last_transcript := "Hello there." }
      "Hello there. Yes" (GenOutcome.response "R") none).state =
      { conversation := ConversationContext.init, last_transcript := "Hello there." } := by
  constructor
  · exact ((C1_utterance_gate SessionState.init "Hello there."
      (GenOutcome.response "R") none).2.2.2 (by decide)).1
  · exact ((C1_utterance_gate
      { conversation := ConversationContext.init, last_transcript := "Hello there." }
      "Hello there. Yes" (GenOutcome.response "R") none).2.2.1 (by decide)).1

/-- C8: handling an `analyze_image` control message sets `current_image` to
the supplied data URL and appends exactly one placeholder user turn, then
exactly one assistant turn carrying the analysis result; the turns the
handler appends are the fixed placeholder and the provider text, so the raw
image payload (a `data:` URL) is not written into the textual history. -/
theorem C8_image_message (st : SessionState) (data_url : String)
    (img : ImageOutcome) (tts : Option (List Nat)) :
    (handle_image_message st data_url img tts).state.conversation.current_image =
      some data_url ∧
    (handle_image_message st data_url img tts).state.conversation.messages =
      st.conversation.messages ++
        [{ role := Role.user, content := ConversationContext.imagePlaceholder },
         { role := Role.assistant, content := analyze_image_from_data_url data_url img }] ∧
    (pyStartsWith data_url "data:" = true →
      ConversationContext.imagePlaceholder ≠ data_url) := by
  refine ⟨rfl, ?_, ?_⟩
  · simp [handle_image_message, ConversationContext.add_image_message,
      ConversationContext.add_ai_response]
  · intro hpre heq
    rw [← heq] at hpre
    exact absurd hpre (by decide)

/-- Witness for C8 at a concrete data URL. -/
theorem C8_image_message_witness :
    (handle_image_message SessionState.init "data:image/png;base64,AAA"
      (ImageOutcome.response "R") none).state.conversation.current_image =
      some "data:image/png;base64,AAA" ∧
    (handle_image_message SessionState.init "data:image/png;base64,AAA"
      (ImageOutcome.response "R") none).state.conversation.messages =
      [{ role := Role.user, content := ConversationContext.imagePlaceholder },
       { role := Role.assistant, content := "R" }] ∧
    ConversationContext.imagePlaceholder ≠ "data:image/png;base64,AAA" := by
  have h := C8_image_message SessionState.init "data:image/png;base64,AAA"
    (ImageOutcome.response "R") none
  refine ⟨h.1, ?_, h.2.2 (by decide)⟩
  rw [h.2.1]
  decide

/-- C10: on any text-generation fault (provider exception, or a blocked or
empty model response) `analyze_text_with_gemini` does not raise (it is
total) and returns the fixed apology for that fault kind; an accepted
utterance whose generation faults gets the apology appended to the history
as an assistant turn and delivered as a normal `ai_response` event, and no
`error` event is emitted on this path. -/
theorem C10_generation_fault_policy (st : SessionState) (transcript prompt : String)
    (gen : GenOutcome) (tts : Option (List Nat))
    (hf : isGenFault gen = true)
    (hacc : utteranceAccept transcript st.last_transcript = true) :
    analyze_text_with_gemini prompt gen = apologyFor gen ∧
    (send_transcript_to_client st transcript gen tts).events =
      [OutEvent.transcription transcript, OutEvent.ai_response (apologyFor gen)] ++
        ttsEvents tts ∧
    countEvents isErrorEvent (send_transcript_to_client st transcript gen tts).events = 0 ∧
    (send_transcript_to_client st transcript gen tts).state.conversation.messages =
      st.conversation.messages ++
        [Turn.mk Role.user transcript, Turn.mk Role.assistant (apologyFor gen)] := by
  have hgem : ∀ p, analyze_text_with_gemini p gen = apologyFor gen := by
    intro p
    cases gen with
    | response t =>
      have ht : t = "" := by
        have := hf
        rw [isGenFault] at this
        exact of_decide_eq_true this
      rw [ht]
      simp [analyze_text_with_gemini, apologyFor]
    | raised => rfl
  have hev : (send_transcript_to_client st transcript gen tts).events =
      [OutEvent.transcription transcript, OutEvent.ai_response (apologyFor gen)] ++
        ttsEvents tts := by
    rw [send_transcript_to_client, if_pos hacc]
    simp [hgem]
  refine ⟨hgem prompt, hev, ?_, ?_⟩
  · rw [hev]
    rcases tts with _ | bs
    · simp [countEvents, ttsEvents, isErrorEvent]
    · by_cases hb : bs = [] <;> simp [countEvents, ttsEvents, hb, isErrorEvent]
  · rw [send_transcript_to_client, if_pos hacc]
    simp [ConversationContext.add_user_message, ConversationContext.add_ai_response, hgem]

/-- Witness for C10: a provider exception on the first accepted utterance. -/
theorem C10_generation_fault_policy_witness :
    analyze_text_with_gemini "p" GenOutcome.raised = apologyFor GenOutcome.raised ∧
    (send_transcript_to_client SessionState.init "Hello there."
      GenOutcome.raised none).events =
      [OutEvent.transcription "Hello there.",
       OutEvent.ai_response (apologyFor GenOutcome.raised)] ++ ttsEvents none ∧
    countEvents isErrorEvent (send_transcript_to_client SessionState.init "Hello there."
      GenOutcome.raised none).events = 0 ∧
    (send_transcript_to_client SessionState.init "Hello there."
      GenOutcome.raised none).state.conversation.messages =
      SessionState.init.conversation.messages ++
        [Turn.mk Role.user "Hello there.",
         Turn.mk Role.assistant (apologyFor GenOutcome.raised)] :=
  C10_generation_fault_policy SessionState.init "Hello there." "p" GenOutcome.raised none
    (by decide) (by decide)

/-- The best-effort audio tail holds no event or exactly one audio event. -/
theorem ttsEvents_shape (tts : Option (List Nat)) :
    ttsEvents tts = [] ∨ ∃ bs, ttsEvents tts = [OutEvent.ai_audio bs] := by
  rcases tts with _ | bs
  · exact Or.inl rfl
  · by_cases hb : bs = []
    · exact Or.inl (by simp [ttsEvents, hb])
    · exact Or.inr ⟨bs, by simp [ttsEvents, hb]⟩

/-- In every prefix of a caption-then-audio emission, audio events never
outnumber caption events (so audio is never emitted before the caption). -/
theorem audio_prefix_le_aux (pre : List OutEvent) (r : String) (tail : List OutEvent)
    (hpre : ∀ e ∈ pre, isAiAudio e = false ∧ isAiResponse e = false)
    (htail : tail = [] ∨ ∃ bs, tail = [OutEvent.ai_audio bs]) (n : Nat) :
    countEvents isAiAudio ((pre ++ OutEvent.ai_response r :: tail).take n) ≤
      countEvents isAiResponse ((pre ++ OutEvent.ai_response r :: tail).take n) := by
  induction pre generalizing n with
  | nil =>
    rcases htail with h | ⟨bs, h⟩ <;> subst h <;>
      rcases n with _ | _ | n <;>
      simp [countEvents, isAiAudio, isAiResponse, List.take]
  | cons e pre ih =>
    rcases n with _ | n
    · simp [countEvents]
    · have he := hpre e (by simp)
      have hrest : ∀ x ∈ pre, isAiAudio x = false ∧ isAiResponse x = false :=
        fun x hx => hpre x (by simp [hx])
      simp only [List.cons_append, List.take_succ_cons, countEvents, List.filter]
      rw [he.1, he.2]
      exact ih hrest n

/-- Contiguity of per-input event blocks in the session loop. -/
theorem runActive_events_append (st : SessionState) (dg : DGState)
    (xs ys : List SessionInput) :
    (runActive st dg (xs ++ ys)).2.2 =
      (runActive st dg xs).2.2 ++
        (runActive (runActive st dg xs).1 (runActive st dg xs).2.1 ys).2.2 := by
  induction xs generalizing st dg with
  | nil => simp [runActive]
  | cons x xs ih =>
    simp only [List.cons_append, runActive, List.append_eq]
    rw [ih]
    simp [List.append_assoc]

/-- C2: for every accepted utterance (and likewise every image-analysis
request) the handler emits exactly one `ai_response` event and at most one
`ai_audio` event, and in every prefix of the emission the audio events never
outnumber the caption events (audio strictly after the caption, never
before); a text-to-speech failure suppresses only the audio event — the
caption is still delivered and the resulting session state is unchanged;
and the session loop concatenates per-input event blocks in order, so one
utterance's events are never interleaved with a later one's. -/
theorem C2_event_ordering (st : SessionState) (transcript : String) (gen : GenOutcome)
    (tts : Option (List Nat)) (data_url : String) (img : ImageOutcome)
    (dg : DGState) (xs ys : List SessionInput)
    (hacc : utteranceAccept transcript st.last_transcript = true) :
    countEvents isAiResponse (send_transcript_to_client st transcript gen tts).events = 1 ∧
    countEvents isAiAudio (send_transcript_to_client st transcript gen tts).events ≤ 1 ∧
    (∀ n, countEvents isAiAudio
        ((send_transcript_to_client st transcript gen tts).events.take n) ≤
      countEvents isAiResponse
        ((send_transcript_to_client st transcript gen tts).events.take n)) ∧
    countEvents isAiResponse (handle_image_message st data_url img tts).events = 1 ∧
    countEvents isAiAudio (handle_image_message st data_url img tts).events ≤ 1 ∧
    (∀ n, countEvents isAiAudio
        ((handle_image_message st data_url img tts).events.take n) ≤
      countEvents isAiResponse
        ((handle_image_message st data_url img tts).events.take n)) ∧
    ((send_transcript_to_client st transcript gen none).events =
      [OutEvent.transcription transcript,
       OutEvent.ai_response (analyze_text_with_gemini
         ((st.conversation.add_user_message transcript).get_prompt_with_context
           transcript) gen)] ∧
     (send_transcript_to_client st transcript gen none).state =
       (send_transcript_to_client st transcript gen tts).state) ∧
    (runActive st dg (xs ++ ys)).2.2 =
      (runActive st dg xs).2.2 ++
        (runActive (runActive st dg xs).1 (runActive st dg xs).2.1 ys).2.2 := by
  have hev : (send_transcript_to_client st transcript gen tts).events =
      [OutEvent.transcription transcript,
       OutEvent.ai_response (analyze_text_with_gemini
         ((st.conversation.add_user_message transcript).get_prompt_with_context
           transcript) gen)] ++ ttsEvents tts := by
    rw [send_transcript_to_client, if_pos hacc]
  have himg : (handle_image_message st data_url img tts).events =
      [OutEvent.ai_response (analyze_image_from_data_url data_url img)] ++
        ttsEvents tts := rfl
  refine ⟨?_, ?_, ?_, ?_, ?_, ?_, ⟨?_, ?_⟩, runActive_events_append st dg xs ys⟩
  · rw [hev]
    rcases ttsEvents_shape tts with h | ⟨bs, h⟩ <;> rw [h] <;>
      simp [countEvents, isAiResponse]
  · rw [hev]
    rcases ttsEvents_shape tts with h | ⟨bs, h⟩ <;> rw [h] <;>
      simp [countEvents, isAiAudio]
  · intro n
    rw [hev]
    exact audio_prefix_le_aux [OutEvent.transcription transcript] _ (ttsEvents tts)
      (by intro e he; simp at he; rw [he]; exact ⟨rfl, rfl⟩)
      (ttsEvents_shape tts) n
  · rw [himg]
    rcases ttsEvents_shape tts with h | ⟨bs, h⟩ <;> rw [h] <;>
      simp [countEvents, isAiResponse]
  · rw [himg]
    rcases ttsEvents_shape tts with h | ⟨bs, h⟩ <;> rw [h] <;>
      simp [countEvents, isAiAudio]
  · intro n
    rw [himg]
    exact audio_prefix_le_aux [] _ (ttsEvents tts)
      (by intro e he; simp at he)
      (ttsEvents_shape tts) n
  · rw [send_transcript_to_client, if_pos hacc]
    simp [ttsEvents]
  · rw [send_transcript_to_client, if_pos hacc, send_transcript_to_client, if_pos hacc]

/-- Witness for C2 at the accepted utterance of the scenario. -/
theorem C2_event_ordering_witness :
    countEvents isAiResponse (send_transcript_to_client SessionState.init
      "What style is this?" (GenOutcome.response "R") (some [1])).events = 1 ∧
    countEvents isAiAudio (send_transcript_to_client SessionState.init
      "What style is this?" (GenOutcome.response "R") (some [1])).events ≤ 1 :=
  ⟨(C2_event_ordering SessionState.init "What style is this?" (GenOutcome.response "R")
      (some [1]) "d" (ImageOutcome.response "R") DGState.init [] [] (by decide)).1,
   (C2_event_ordering SessionState.init "What style is this?" (GenOutcome.response "R")
      (some [1]) "d" (ImageOutcome.response "R") DGState.init [] [] (by decide)).2.1⟩

/-- C3 counterexample: the first accepted utterance "Hello there." already
appears as a turn in the history embedded in the grounded prompt that is
handed to the generation capability — the source appends the user turn
BEFORE building the prompt, so the prompt is not built from the context as
it stood before the append, contradicting the claim. -/
theorem C3_prompt_counterexample :
    utteranceAccept "Hello there." "" = true ∧
    (send_transcript_to_client SessionState.init "Hello there."
      (GenOutcome.response "R") none).calls =
      [ProviderCall.genCall (groundedTemplate "User: Hello there.\n" "Hello there."),
       ProviderCall.ttsCall "R"] ∧
    (ConversationContext.init.add_user_message "Hello there.").get_conversation_history =
      "User: Hello there.\n" := by
  refine ⟨by decide, by decide, by decide⟩

/-- C3 (amended): the grounded prompt passed to the text-generation
capability is built from the conversation context AFTER the accepted user
text is appended — the rendered history embedded in the prompt contains
that utterance as its final turn — and the model's response turn is
appended to the context after the prompt is built and the generation call
is made. -/
theorem C3_prompt_built_after_append (st : SessionState) (transcript : String)
    (gen : GenOutcome) (tts : Option (List Nat))
    (hacc : utteranceAccept transcript st.last_transcript = true) :
    (send_transcript_to_client st transcript gen tts).calls =
      [ProviderCall.genCall
         ((st.conversation.add_user_message transcript).get_prompt_with_context
           transcript),
       ProviderCall.ttsCall (analyze_text_with_gemini
         ((st.conversation.add_user_message transcript).get_prompt_with_context
           transcript) gen)] ∧
    (∃ pre : List Turn,
      (st.conversation.add_user_message transcript).get_conversation_history =
        ConversationContext.formatTurns (pre ++ [Turn.mk Role.user transcript])) ∧
    (send_transcript_to_client st transcript gen tts).state.conversation.messages =
      st.conversation.messages ++
        [Turn.mk Role.user transcript,
         Turn.mk Role.assistant (analyze_text_with_gemini
           ((st.conversation.add_user_message transcript).get_prompt_with_context
             transcript) gen)] := by
  refine ⟨?_, ?_, ?_⟩
  · rw [send_transcript_to_client, if_pos hacc]
  · rw [ConversationContext.get_conversation_history]
    simp only [ConversationContext.add_user_message]
    split
    · next hgt =>
      rw [ConversationContext.pySliceLast, if_neg (by omega)]
      refine ⟨st.conversation.messages.drop
        ((st.conversation.messages ++ [Turn.mk Role.user transcript]).length - 10), ?_⟩
      congr 1
      apply List.drop_append_of_le_length
      simp only [List.length_append, List.length_cons, List.length_nil] at hgt ⊢
      omega
    · exact ⟨st.conversation.messages, rfl⟩
  · rw [send_transcript_to_client, if_pos hacc]
    simp [ConversationContext.add_user_message, ConversationContext.add_ai_response]

/-- Witness for C3 (amended) at the first accepted utterance. -/
theorem C3_prompt_built_after_append_witness :
    (send_transcript_to_client SessionState.init "Hello there."
      (GenOutcome.response "R") none).calls =
      [ProviderCall.genCall
         (ConversationContext.get_prompt_with_context
           (SessionState.init.conversation.add_user_message "Hello there.")
           "Hello there."),
       ProviderCall.ttsCall (analyze_text_with_gemini
         (ConversationContext.get_prompt_with_context
           (SessionState.init.conversation.add_user_message "Hello there.")
           "Hello there.") (GenOutcome.response "R"))] ∧
    (∃ pre : List Turn,
      ConversationContext.get_conversation_history
          (SessionState.init.conversation.add_user_message "Hello there.") =
        ConversationContext.formatTurns (pre ++ [Turn.mk Role.user "Hello there."])) :=
  ⟨(C3_prompt_built_after_append SessionState.init "Hello there."
      (GenOutcome.response "R") none (by decide)).1,
   (C3_prompt_built_after_append SessionState.init "Hello there."
      (GenOutcome.response "R") none (by decide)).2.1⟩

/-- C5: when the transcription stream is not connected after the
session-start grace delay, the endpoint closes the client connection with
the service-unavailable close reason and emits no event at all (in
particular no `ai_response`); and on every exit path of the endpoint — this
early path, the client-disconnect path and the server-fault path alike —
`finish()` is invoked on the transcription stream before the session is
discarded, leaving it disconnected. -/
theorem C5_connect_failure_cleanup (co : ConnectOutcome) (script : List SessionInput)
    (ending : SessionEnd)
    (hco : (DeepgramConnection.connect DGState.init co).is_connected = false) :
    (websocket_endpoint co script ending).close_info =
      some (1011, "Failed to connect to transcription service") ∧
    (websocket_endpoint co script ending).events = [] ∧
    countEvents isAiResponse (websocket_endpoint co script ending).events = 0 ∧
    (∀ co2 script2 ending2,
      (websocket_endpoint co2 script2 ending2).finish_invoked = true ∧
      (websocket_endpoint co2 script2 ending2).final_dg.is_connected = false) := by
  have hrun : websocket_endpoint co script ending =
      { events := [],
        close_info := some (1011, "Failed to connect to transcription service"),
        finish_invoked := true,
        final_dg := DeepgramConnection.finish
          (DeepgramConnection.connect DGState.init co) } := by
    rw [websocket_endpoint]
    simp [hco]
  refine ⟨by rw [hrun], by rw [hrun], by rw [hrun]; rfl, ?_⟩
  intro co2 script2 ending2
  rw [websocket_endpoint]
  split
  · exact ⟨rfl, rfl⟩
  · cases ending2 <;> exact ⟨rfl, rfl⟩

/-- Witness for C5: the stream never opens, the session is closed with the
service-unavailable reason and no events. -/
theorem C5_connect_failure_cleanup_witness :
    (websocket_endpoint ConnectOutcome.notOpened [] SessionEnd.clientDisconnect).close_info =
      some (1011, "Failed to connect to transcription service") ∧
    (websocket_endpoint ConnectOutcome.notOpened [] SessionEnd.clientDisconnect).events =
      [] :=
  ⟨(C5_connect_failure_cleanup ConnectOutcome.notOpened [] SessionEnd.clientDisconnect
      (by decide)).1,
   (C5_connect_failure_cleanup ConnectOutcome.notOpened [] SessionEnd.clientDisconnect
      (by decide)).2.1⟩

end ArtSensei
